import Mathlib

/-!
# Verification of the mock payment provider simulation engine

Shallow embedding of `src/mock-provider/server.js`: the configuration
resolution (lines 8-29), the token-bucket rate limiter (lines 32-33, 55-62,
166-174), the circuit breaker (lines 36-40, 65-99), the metrics record
(lines 43-52), the `/pay` handler (lines 152-223) and the `/reset` handler
(lines 226-247).

JavaScript numbers are modelled as rationals (`ℚ`); every arithmetic
operation performed by the engine on them (addition, subtraction,
multiplication, division by a nonzero count, `Math.min`, comparisons) is
exact on the values the engine produces, so `ℚ` is a faithful carrier.
Counters that only ever receive `++` from `0` are modelled as `ℕ`.
`Date.now()` values are passed in explicitly as `ℚ` timestamps, and each
`Math.random()` draw is an explicit `ℚ` parameter of the handler.
-/

namespace MockProvider

/-- The three breaker states of the string-typed `circuitBreaker.state`
(`'CLOSED' | 'OPEN' | 'HALF_OPEN'`, server.js line 39). -/
inductive BreakerPhase
  | CLOSED
  | OPEN
  | HALF_OPEN
deriving DecidableEq, Repr

/-- The `config` object (server.js lines 8-29) after resolution. -/
structure Config where
  tps : ℚ
  burstSize : ℚ
  minLatency : ℚ
  maxLatency : ℚ
  transientFailureRate : ℚ
  permanentFailureRate : ℚ
  timeoutRate : ℚ
  timeoutDuration : ℚ
  circuitBreakerEnabled : Bool
  circuitBreakerThreshold : ℚ
  circuitBreakerTimeout : ℚ
deriving DecidableEq, Repr

/-- Environment input to configuration resolution. Each numeric field is the
result of `parseInt`/`parseFloat` on the corresponding environment variable:
`none` models a missing variable or an unparsable one (`NaN`, which is falsy,
so `NaN || d` takes the default exactly like a missing variable does).
`circuitBreaker` is the raw string value of `CIRCUIT_BREAKER`. -/
structure Env where
  tps : Option ℚ
  burstSize : Option ℚ
  minLatency : Option ℚ
  maxLatency : Option ℚ
  transientFailureRate : Option ℚ
  permanentFailureRate : Option ℚ
  timeoutRate : Option ℚ
  timeoutDuration : Option ℚ
  circuitBreaker : Option String
  circuitBreakerThreshold : Option ℚ
  circuitBreakerTimeout : Option ℚ
deriving DecidableEq, Repr

/-- The JS fallback pattern `parseX(env) || d`: a parse failure (`NaN`) or a
parsed `0` is falsy and falls back to the default `d`. -/
def falsyOr (v : Option ℚ) (d : ℚ) : ℚ :=
  match v with
  | none => d
  | some x => if x = 0 then d else x

/-- Configuration resolution (server.js lines 8-29). Total: no validation is
performed anywhere; whatever nonzero value parses is adopted verbatim. -/
def resolveConfig (e : Env) : Config :=
  { tps := falsyOr e.tps 2
    burstSize := falsyOr e.burstSize 5
    minLatency := falsyOr e.minLatency 200
    maxLatency := falsyOr e.maxLatency 800
    transientFailureRate := falsyOr e.transientFailureRate (2/10)
    permanentFailureRate := falsyOr e.permanentFailureRate (5/100)
    timeoutRate := falsyOr e.timeoutRate (1/10)
    timeoutDuration := falsyOr e.timeoutDuration 10000
    circuitBreakerEnabled := e.circuitBreaker = some "true"
    circuitBreakerThreshold := falsyOr e.circuitBreakerThreshold 5
    circuitBreakerTimeout := falsyOr e.circuitBreakerTimeout 30000 }

/-- An environment with every variable absent (or unparsable). -/
def envNone : Env :=
  { tps := none, burstSize := none, minLatency := none, maxLatency := none
    transientFailureRate := none, permanentFailureRate := none
    timeoutRate := none, timeoutDuration := none, circuitBreaker := none
    circuitBreakerThreshold := none, circuitBreakerTimeout := none }

/-- An environment with every numeric variable set to a string parsing to 0. -/
def envZeros : Env :=
  { tps := some 0, burstSize := some 0, minLatency := some 0
    maxLatency := some 0, transientFailureRate := some 0
    permanentFailureRate := some 0, timeoutRate := some 0
    timeoutDuration := some 0, circuitBreaker := none
    circuitBreakerThreshold := some 0, circuitBreakerTimeout := some 0 }

/-- The mutable `circuitBreaker` object (server.js lines 36-40). -/
structure CircuitBreakerState where
  failures : ℚ
  lastFailure : ℚ
  state : BreakerPhase
deriving DecidableEq, Repr

/-- The mutable `metrics` object (server.js lines 43-52). -/
structure Metrics where
  totalRequests : ℕ
  successfulRequests : ℕ
  failedRequests : ℕ
  rateLimitedRequests : ℕ
  timeoutRequests : ℕ
  circuitBreakerTrips : ℕ
  averageLatency : ℚ
  startTime : ℚ
deriving DecidableEq, Repr

/-- The whole process-wide mutable state: `tokens`, `lastRefill`,
`circuitBreaker`, `metrics` (server.js lines 32-52). -/
structure ServerState where
  tokens : ℚ
  lastRefill : ℚ
  circuitBreaker : CircuitBreakerState
  metrics : Metrics
deriving DecidableEq, Repr

/-- Initial metrics at process start (server.js lines 43-52). -/
def initMetrics (now : ℚ) : Metrics :=
  { totalRequests := 0, successfulRequests := 0, failedRequests := 0
    rateLimitedRequests := 0, timeoutRequests := 0, circuitBreakerTrips := 0
    averageLatency := 0, startTime := now }

/-- Process-start state: `tokens = config.burstSize`, breaker CLOSED with no
failures (server.js lines 32-40). -/
def initState (cfg : Config) (now : ℚ) : ServerState :=
  { tokens := cfg.burstSize, lastRefill := now
    circuitBreaker := { failures := 0, lastFailure := 0, state := .CLOSED }
    metrics := initMetrics now }

/-- The `setInterval` refill body (server.js lines 55-62):
`tokens = Math.min(tokens + (now - lastRefill) / 1000 * tps, burstSize)`. -/
def refillTokens (cfg : Config) (now : ℚ) (s : ServerState) : ServerState :=
  let timePassed := (now - s.lastRefill) / 1000
  let tokensToAdd := timePassed * cfg.tps
  { s with tokens := min (s.tokens + tokensToAdd) cfg.burstSize
           lastRefill := now }

/-- `checkCircuitBreaker()` (server.js lines 65-78). Returns the gate verdict
and the (possibly mutated) breaker state: while OPEN, the request is rejected
unless `now - lastFailure > circuitBreakerTimeout`, in which case the state
moves to HALF_OPEN and the request is admitted; in CLOSED or HALF_OPEN the
function falls through and admits unconditionally. -/
def checkCircuitBreaker (cfg : Config) (now : ℚ) (cb : CircuitBreakerState) :
    Bool × CircuitBreakerState :=
  if cb.state = .OPEN then
    if cfg.circuitBreakerTimeout < now - cb.lastFailure then
      (true, { cb with state := .HALF_OPEN })
    else
      (false, cb)
  else
    (true, cb)

/-- `updateCircuitBreaker(success)` (server.js lines 80-99). Takes and returns
the `metrics.circuitBreakerTrips` counter alongside the breaker state, since
the function mutates both. No-op when the breaker is disabled. On failure it
increments `failures`, re-arms `lastFailure`, and whenever the new count
reaches the threshold it sets the state to OPEN and increments the trip
counter — even if the state already was OPEN. -/
def updateCircuitBreaker (cfg : Config) (now : ℚ) (success : Bool)
    (cb : CircuitBreakerState) (trips : ℕ) : CircuitBreakerState × ℕ :=
  if !cfg.circuitBreakerEnabled then
    (cb, trips)
  else if success then
    if cb.state = .HALF_OPEN then
      ({ cb with state := .CLOSED, failures := 0 }, trips)
    else
      (cb, trips)
  else
    let cb1 : CircuitBreakerState :=
      { cb with failures := cb.failures + 1, lastFailure := now }
    if cfg.circuitBreakerThreshold ≤ cb1.failures then
      ({ cb1 with state := .OPEN }, trips + 1)
    else
      (cb1, trips)

/-- The five terminal verdicts of the `/pay` handler. -/
inductive PayResult
  | BREAKER_OPEN
  | RATE_LIMITED
  | TIMEOUT
  | PERMANENT_FAILURE
  | TRANSIENT_FAILURE
  | SUCCESS
deriving DecidableEq, Repr

/-- The outcome-selection logic of the admitted path of `/pay` (server.js
lines 180, 188, 196): three INDEPENDENT `Math.random()` draws `r1, r2, r3`,
each compared against its own configured rate in priority order. -/
def selectOutcome (cfg : Config) (r1 r2 r3 : ℚ) : PayResult :=
  if r1 < cfg.timeoutRate then .TIMEOUT
  else if r2 < cfg.permanentFailureRate then .PERMANENT_FAILURE
  else if r3 < cfg.transientFailureRate then .TRANSIENT_FAILURE
  else .SUCCESS

/-- Modelled from the spec (§4.3), for comparison with `selectOutcome`: a
SINGLE uniform draw `r` classified by non-overlapping cumulative bands in the
order timeout, permanent, transient, success. This is the spec's description,
not the code's. -/
def specBandOutcome (cfg : Config) (r : ℚ) : PayResult :=
  if r < cfg.timeoutRate then .TIMEOUT
  else if r < cfg.timeoutRate + cfg.permanentFailureRate then .PERMANENT_FAILURE
  else if r < cfg.timeoutRate + cfg.permanentFailureRate
                + cfg.transientFailureRate then .TRANSIENT_FAILURE
  else .SUCCESS

/-- The success-path running-average update (server.js lines 209-211):
`averageLatency = (averageLatency * successfulRequests + responseTime) /
(successfulRequests + 1)` followed by `successfulRequests++`. -/
def recordSuccessLatency (m : Metrics) (responseTime : ℚ) : Metrics :=
  { m with
    averageLatency :=
      (m.averageLatency * (m.successfulRequests : ℚ) + responseTime)
        / ((m.successfulRequests : ℚ) + 1)
    successfulRequests := m.successfulRequests + 1 }

/-- The `POST /pay` handler (server.js lines 152-223). `tStart` is
`Date.now()` at entry (line 153, also the clock the gate reads at line 66
since no suspension occurs in between); `tEnd` is `Date.now()` after the
simulated delay (the clock read by line 91 and line 209); `r1, r2, r3` are
the three `Math.random()` draws of lines 180, 188 and 196. The latency draw
of line 177 only sizes the simulated delay and the response payload, never
the stored state, so it is not a parameter. -/
def payHandler (cfg : Config) (tStart tEnd : ℚ) (r1 r2 r3 : ℚ)
    (s : ServerState) : PayResult × ServerState :=
  let m := { s.metrics with totalRequests := s.metrics.totalRequests + 1 }
  let gate := checkCircuitBreaker cfg tStart s.circuitBreaker
  if !gate.1 then
    (.BREAKER_OPEN,
      { s with circuitBreaker := gate.2
               metrics := { m with failedRequests := m.failedRequests + 1 } })
  else if s.tokens < 1 then
    (.RATE_LIMITED,
      { s with circuitBreaker := gate.2
               metrics := { m with
                 rateLimitedRequests := m.rateLimitedRequests + 1 } })
  else
    let tokens1 := s.tokens - 1
    if r1 < cfg.timeoutRate then
      let m1 := { m with timeoutRequests := m.timeoutRequests + 1 }
      let u := updateCircuitBreaker cfg tEnd false gate.2 m1.circuitBreakerTrips
      (.TIMEOUT,
        { s with tokens := tokens1, circuitBreaker := u.1
                 metrics := { m1 with circuitBreakerTrips := u.2 } })
    else if r2 < cfg.permanentFailureRate then
      let m1 := { m with failedRequests := m.failedRequests + 1 }
      let u := updateCircuitBreaker cfg tEnd false gate.2 m1.circuitBreakerTrips
      (.PERMANENT_FAILURE,
        { s with tokens := tokens1, circuitBreaker := u.1
                 metrics := { m1 with circuitBreakerTrips := u.2 } })
    else if r3 < cfg.transientFailureRate then
      let m1 := { m with failedRequests := m.failedRequests + 1 }
      let u := updateCircuitBreaker cfg tEnd false gate.2 m1.circuitBreakerTrips
      (.TRANSIENT_FAILURE,
        { s with tokens := tokens1, circuitBreaker := u.1
                 metrics := { m1 with circuitBreakerTrips := u.2 } })
    else
      let m1 := recordSuccessLatency m (tEnd - tStart)
      let u := updateCircuitBreaker cfg tEnd true gate.2 m1.circuitBreakerTrips
      (.SUCCESS,
        { s with tokens := tokens1, circuitBreaker := u.1
                 metrics := { m1 with circuitBreakerTrips := u.2 } })

/-- The `POST /reset` handler (server.js lines 226-247): zeroes every metrics
counter and the average, sets `startTime` to now, rebuilds the breaker as
CLOSED with no failures, refills the bucket to `burstSize`. `lastRefill` is
not touched. -/
def resetHandler (cfg : Config) (now : ℚ) (s : ServerState) : ServerState :=
  { tokens := cfg.burstSize
    lastRefill := s.lastRefill
    circuitBreaker := { failures := 0, lastFailure := 0, state := .CLOSED }
    metrics := { totalRequests := 0, successfulRequests := 0
                 failedRequests := 0, rateLimitedRequests := 0
                 timeoutRequests := 0, circuitBreakerTrips := 0
                 averageLatency := 0, startTime := now } }

/-- One atomic event-loop turn of the engine. Each constructor is one of the
synchronous state mutations the process performs: a refill tick (with the
clock-monotonicity side condition `lastRefill ≤ now`), a `/pay` request
(admission bookkeeping and post-delay bookkeeping both included), or a
`/reset`. -/
inductive Step (cfg : Config) : ServerState → ServerState → Prop
  | refill (s : ServerState) (now : ℚ) (h : s.lastRefill ≤ now) :
      Step cfg s (refillTokens cfg now s)
  | pay (s : ServerState) (tStart tEnd r1 r2 r3 : ℚ) :
      Step cfg s (payHandler cfg tStart tEnd r1 r2 r3 s).2
  | reset (s : ServerState) (now : ℚ) :
      Step cfg s (resetHandler cfg now s)

/-- States reachable from process start under the given configuration. -/
inductive Reachable (cfg : Config) : ServerState → Prop
  | init (t0 : ℚ) : Reachable cfg (initState cfg t0)
  | step {s s' : ServerState} :
      Reachable cfg s → Step cfg s s' → Reachable cfg s'

/-- A concrete configuration carrying the documented default rates
(`t = 0.1`, `p = 0.05`, `f = 0.2`) with the breaker enabled at threshold 2. -/
def cfgDemo : Config :=
  { tps := 2, burstSize := 5, minLatency := 200, maxLatency := 800
    transientFailureRate := 2/10, permanentFailureRate := 5/100
    timeoutRate := 1/10, timeoutDuration := 10000
    circuitBreakerEnabled := true, circuitBreakerThreshold := 2
    circuitBreakerTimeout := 30000 }

/-- Like `cfgDemo` but with breaker threshold 1, so a single failure opens
the breaker. -/
def cfgC3 : Config :=
  { cfgDemo with circuitBreakerThreshold := 1 }

/-- An environment that configures a negative timeout rate and leaves every
other variable unset. -/
def envC9 : Env :=
  { envNone with timeoutRate := some (-(1/2)) }

end MockProvider

namespace MockProvider

/-- C10: resolution uses a falsy-or fallback, so for every numeric setting an
environment value that parses to 0 (or fails to parse) resolves to the
documented default rather than to 0; an all-zeros environment resolves to the
same configuration as an empty one, and in particular `TIMEOUT_RATE=0` yields
the default 0.1. -/
theorem zero_env_value_resolves_to_default :
    (∀ (v : Option ℚ) (d : ℚ), v = some 0 ∨ v = none → falsyOr v d = d) ∧
    resolveConfig envZeros = resolveConfig envNone ∧
    (resolveConfig envZeros).timeoutRate = 1/10 ∧
    (resolveConfig envZeros).permanentFailureRate = 5/100 ∧
    (resolveConfig envZeros).transientFailureRate = 2/10 ∧
    (resolveConfig envZeros).tps = 2 ∧
    (resolveConfig envZeros).burstSize = 5 := by
  refine ⟨?_, ?_, ?_, ?_, ?_, ?_, ?_⟩ <;>
    first
      | (rintro v d (rfl | rfl) <;> simp [falsyOr])
      | simp [resolveConfig, falsyOr, envZeros, envNone]

/-- Witness for `zero_env_value_resolves_to_default`: concrete instances of
the falsy-or fallback. -/
theorem zero_env_value_resolves_to_default_witness :
    falsyOr (some 0) 7 = 7 ∧ falsyOr none (1/10) = 1/10 :=
  ⟨zero_env_value_resolves_to_default.1 (some 0) 7 (Or.inl rfl),
   zero_env_value_resolves_to_default.1 none (1/10) (Or.inr rfl)⟩

/-- C7: `/reset` is a single engine step that restores every named piece of
state to its initial value: all six counters and the average become 0, the
breaker becomes CLOSED with failure count 0, and the bucket is refilled to
`burstSize`. -/
theorem reset_restores_initial (cfg : Config) (now : ℚ) (s : ServerState) :
    Step cfg s (resetHandler cfg now s) ∧
    (resetHandler cfg now s).metrics.totalRequests = 0 ∧
    (resetHandler cfg now s).metrics.successfulRequests = 0 ∧
    (resetHandler cfg now s).metrics.failedRequests = 0 ∧
    (resetHandler cfg now s).metrics.rateLimitedRequests = 0 ∧
    (resetHandler cfg now s).metrics.timeoutRequests = 0 ∧
    (resetHandler cfg now s).metrics.circuitBreakerTrips = 0 ∧
    (resetHandler cfg now s).metrics.averageLatency = 0 ∧
    (resetHandler cfg now s).circuitBreaker.state = .CLOSED ∧
    (resetHandler cfg now s).circuitBreaker.failures = 0 ∧
    (resetHandler cfg now s).tokens = cfg.burstSize :=
  ⟨Step.reset s now, rfl, rfl, rfl, rfl, rfl, rfl, rfl, rfl, rfl, rfl⟩

/-- C4 amended: `updateCircuitBreaker` increments the trip counter on every
failure report whose resulting failure count reaches the threshold (breaker
enabled), regardless of whether the phase was already OPEN; on success
reports and on sub-threshold failures the counter is unchanged. -/
theorem trip_counter_increment_rule (cfg : Config) (now : ℚ) (success : Bool)
    (cb : CircuitBreakerState) (trips : ℕ) :
    (updateCircuitBreaker cfg now success cb trips).2 =
      trips + (if cfg.circuitBreakerEnabled = true ∧ success = false ∧
                  cfg.circuitBreakerThreshold ≤ cb.failures + 1
               then 1 else 0) := by
  unfold updateCircuitBreaker
  cases hcbe : cfg.circuitBreakerEnabled <;> cases success <;>
    simp [hcbe] <;> split_ifs <;> simp_all

/-- C4 counterexample: with threshold 2, three requests admitted while CLOSED
that all report failure produce a trip counter of 2 even though only one
transition into OPEN happened — the third report starts OPEN, ends OPEN, and
still increments the counter. -/
theorem trip_counter_not_once_per_open_transition :
    (checkCircuitBreaker cfgDemo 0 ⟨0, 0, .CLOSED⟩).1 = true ∧
    (updateCircuitBreaker cfgDemo 1 false ⟨0, 0, .CLOSED⟩ 0).2 = 0 ∧
    (updateCircuitBreaker cfgDemo 2 false
      (updateCircuitBreaker cfgDemo 1 false ⟨0, 0, .CLOSED⟩ 0).1 0).1.state = .OPEN ∧
    (updateCircuitBreaker cfgDemo 2 false
      (updateCircuitBreaker cfgDemo 1 false ⟨0, 0, .CLOSED⟩ 0).1 0).2 = 1 ∧
    (updateCircuitBreaker cfgDemo 3 false
      (updateCircuitBreaker cfgDemo 2 false
        (updateCircuitBreaker cfgDemo 1 false ⟨0, 0, .CLOSED⟩ 0).1 0).1 1).1.state
      = .OPEN ∧
    (updateCircuitBreaker cfgDemo 3 false
      (updateCircuitBreaker cfgDemo 2 false
        (updateCircuitBreaker cfgDemo 1 false ⟨0, 0, .CLOSED⟩ 0).1 0).1 1).2 = 2 := by
  simp [checkCircuitBreaker, updateCircuitBreaker, cfgDemo]
  norm_num

/-- C3 amended: while the breaker is HALF_OPEN, `checkCircuitBreaker` admits
every request and leaves the breaker state unchanged — there is no
single-trial limit; the phase only changes when an outcome is reported. -/
theorem half_open_gate_admits_all (cfg : Config) (now : ℚ)
    (cb : CircuitBreakerState) (h : cb.state = .HALF_OPEN) :
    checkCircuitBreaker cfg now cb = (true, cb) := by
  simp [checkCircuitBreaker, h]

/-- Witness for `half_open_gate_admits_all` at a concrete breaker state. -/
theorem half_open_gate_admits_all_witness :
    checkCircuitBreaker cfgDemo 40000 ⟨2, 2, .HALF_OPEN⟩ =
      (true, ⟨2, 2, .HALF_OPEN⟩) :=
  half_open_gate_admits_all cfgDemo 40000 ⟨2, 2, .HALF_OPEN⟩ rfl

/-- C3 counterexample: a reachable trace (threshold 1; one timed-out request
opens the breaker; the open window elapses) in which a first gate check moves
the breaker to HALF_OPEN and admits, and a second gate check — before any
outcome is reported — is admitted as well, contradicting the claim that at
most one trial request passes the gate while HALF_OPEN. -/
theorem half_open_admits_second_request :
    (payHandler cfgC3 0 10 0 1 1 (initState cfgC3 0)).1 = .TIMEOUT ∧
    (payHandler cfgC3 0 10 0 1 1 (initState cfgC3 0)).2.circuitBreaker.state
      = .OPEN ∧
    (checkCircuitBreaker cfgC3 40000
      (payHandler cfgC3 0 10 0 1 1 (initState cfgC3 0)).2.circuitBreaker).1
      = true ∧
    (checkCircuitBreaker cfgC3 40000
      (payHandler cfgC3 0 10 0 1 1 (initState cfgC3 0)).2.circuitBreaker).2.state
      = .HALF_OPEN ∧
    (checkCircuitBreaker cfgC3 40001
      (checkCircuitBreaker cfgC3 40000
        (payHandler cfgC3 0 10 0 1 1 (initState cfgC3 0)).2.circuitBreaker).2).1
      = true ∧
    (checkCircuitBreaker cfgC3 40001
      (checkCircuitBreaker cfgC3 40000
        (payHandler cfgC3 0 10 0 1 1 (initState cfgC3 0)).2.circuitBreaker).2).2
      = (checkCircuitBreaker cfgC3 40000
          (payHandler cfgC3 0 10 0 1 1 (initState cfgC3 0)).2.circuitBreaker).2 := by
  simp [payHandler, checkCircuitBreaker, updateCircuitBreaker,
    initState, initMetrics, cfgC3, cfgDemo]
  norm_num

/-- C1 amended: for an admitted request the outcome is chosen from THREE
independent uniform draws, each compared against its own configured rate in
the fixed priority order timeout, permanent, transient, success: TIMEOUT iff
`r1 < t`; otherwise PERMANENT_FAILURE iff `r2 < p`; otherwise
TRANSIENT_FAILURE iff `r3 < f`; otherwise SUCCESS. (The spec's single-draw
cumulative bands are refuted by `single_draw_band_selection_refuted`.) -/
theorem outcome_selection_independent_draws (cfg : Config)
    (tS tE r1 r2 r3 : ℚ) (s : ServerState)
    (hgate : (checkCircuitBreaker cfg tS s.circuitBreaker).1 = true)
    (htok : ¬ s.tokens < 1) :
    (payHandler cfg tS tE r1 r2 r3 s).1 = selectOutcome cfg r1 r2 r3 ∧
    (selectOutcome cfg r1 r2 r3 = .TIMEOUT ↔ r1 < cfg.timeoutRate) ∧
    (selectOutcome cfg r1 r2 r3 = .PERMANENT_FAILURE ↔
      ¬ r1 < cfg.timeoutRate ∧ r2 < cfg.permanentFailureRate) ∧
    (selectOutcome cfg r1 r2 r3 = .TRANSIENT_FAILURE ↔
      ¬ r1 < cfg.timeoutRate ∧ ¬ r2 < cfg.permanentFailureRate ∧
        r3 < cfg.transientFailureRate) ∧
    (selectOutcome cfg r1 r2 r3 = .SUCCESS ↔
      ¬ r1 < cfg.timeoutRate ∧ ¬ r2 < cfg.permanentFailureRate ∧
        ¬ r3 < cfg.transientFailureRate) := by
  refine ⟨?_, ?_, ?_, ?_, ?_⟩
  · unfold payHandler selectOutcome
    simp only [hgate, htok, Bool.not_true, if_false, ite_false]
    split_ifs <;> simp_all
  all_goals unfold selectOutcome
  all_goals split_ifs <;> simp_all

/-- Witness for `outcome_selection_independent_draws`: the default-rate
configuration on the initial state with all three draws equal to 0.12. -/
theorem outcome_selection_independent_draws_witness :
    (payHandler cfgDemo 0 1 (12/100) (12/100) (12/100)
        (initState cfgDemo 0)).1 =
      selectOutcome cfgDemo (12/100) (12/100) (12/100) :=
  (outcome_selection_independent_draws cfgDemo 0 1 (12/100) (12/100) (12/100)
    (initState cfgDemo 0) (by simp [checkCircuitBreaker, initState])
    (by norm_num [initState, cfgDemo])).1

/-- C1 counterexample: with rates `t = 0.1`, `p = 0.05`, `f = 0.2` and every
draw equal to 0.12 (in particular the single draw `r = 0.12` of the claim),
the admitted request yields TRANSIENT_FAILURE, while the claimed cumulative
bands demand PERMANENT_FAILURE (`0.1 ≤ 0.12 < 0.15`). -/
theorem single_draw_band_selection_refuted :
    (payHandler cfgDemo 0 1 (12/100) (12/100) (12/100)
        (initState cfgDemo 0)).1 = .TRANSIENT_FAILURE ∧
    specBandOutcome cfgDemo (12/100) = .PERMANENT_FAILURE ∧
    ¬ (payHandler cfgDemo 0 1 (12/100) (12/100) (12/100)
        (initState cfgDemo 0)).1 = .PERMANENT_FAILURE := by
  simp [payHandler, checkCircuitBreaker, updateCircuitBreaker,
    specBandOutcome, initState, initMetrics, cfgDemo]
  norm_num
  decide

/-- C2 amended: on a selected TIMEOUT outcome the handler returns the timeout
error, increments `timeoutRequests` by exactly 1, leaves `failedRequests`
unchanged, and reports a failure to the breaker
(`updateCircuitBreaker false`). -/
theorem timeout_path_effects (cfg : Config) (tS tE r1 r2 r3 : ℚ)
    (s : ServerState)
    (hgate : (checkCircuitBreaker cfg tS s.circuitBreaker).1 = true)
    (htok : ¬ s.tokens < 1) (hr : r1 < cfg.timeoutRate) :
    (payHandler cfg tS tE r1 r2 r3 s).1 = .TIMEOUT ∧
    (payHandler cfg tS tE r1 r2 r3 s).2.metrics.timeoutRequests
      = s.metrics.timeoutRequests + 1 ∧
    (payHandler cfg tS tE r1 r2 r3 s).2.metrics.failedRequests
      = s.metrics.failedRequests ∧
    (payHandler cfg tS tE r1 r2 r3 s).2.circuitBreaker
      = (updateCircuitBreaker cfg tE false
          (checkCircuitBreaker cfg tS s.circuitBreaker).2
          s.metrics.circuitBreakerTrips).1 ∧
    (payHandler cfg tS tE r1 r2 r3 s).2.metrics.circuitBreakerTrips
      = (updateCircuitBreaker cfg tE false
          (checkCircuitBreaker cfg tS s.circuitBreaker).2
          s.metrics.circuitBreakerTrips).2 := by
  unfold payHandler
  simp [hgate, htok, hr]

/-- Witness for `timeout_path_effects`: the default-rate configuration on the
initial state with a timeout draw of 0. -/
theorem timeout_path_effects_witness :
    (payHandler cfgDemo 0 1 0 1 1 (initState cfgDemo 0)).1 = .TIMEOUT :=
  (timeout_path_effects cfgDemo 0 1 0 1 1 (initState cfgDemo 0)
    (by simp [checkCircuitBreaker, initState])
    (by norm_num [initState, cfgDemo])
    (by norm_num [cfgDemo])).1

/-- C2 counterexample: a request whose outcome is TIMEOUT increments the
timeout counter but NOT the failed counter — starting from zeroed metrics,
after one timed-out request `timeoutRequests = 1` while `failedRequests = 0`,
not 1 as the claim requires. -/
theorem timeout_not_counted_as_failed :
    (payHandler cfgDemo 0 1 0 1 1 (initState cfgDemo 0)).1 = .TIMEOUT ∧
    (payHandler cfgDemo 0 1 0 1 1
        (initState cfgDemo 0)).2.metrics.timeoutRequests = 1 ∧
    (payHandler cfgDemo 0 1 0 1 1
        (initState cfgDemo 0)).2.metrics.failedRequests = 0 := by
  simp [payHandler, checkCircuitBreaker, updateCircuitBreaker,
    initState, initMetrics, cfgDemo]

/-- C9 amended: configuration resolution validates nothing — any nonzero
parsed value, including a negative rate or a negative tokens-per-second, is
adopted verbatim into the running configuration. -/
theorem config_resolution_accepts_nonzero_verbatim (e : Env) (x : ℚ)
    (hx : x ≠ 0) :
    (e.timeoutRate = some x → (resolveConfig e).timeoutRate = x) ∧
    (e.permanentFailureRate = some x →
      (resolveConfig e).permanentFailureRate = x) ∧
    (e.transientFailureRate = some x →
      (resolveConfig e).transientFailureRate = x) ∧
    (e.tps = some x → (resolveConfig e).tps = x) := by
  refine ⟨?_, ?_, ?_, ?_⟩ <;> intro h <;> simp [resolveConfig, falsyOr, h, hx]

/-- Witness for `config_resolution_accepts_nonzero_verbatim`: the environment
`TIMEOUT_RATE=-0.5` resolves to a negative timeout rate. -/
theorem config_resolution_accepts_nonzero_verbatim_witness :
    (resolveConfig envC9).timeoutRate = -(1/2) :=
  (config_resolution_accepts_nonzero_verbatim envC9 (-(1/2))
    (by norm_num)).1 rfl

/-- C9 counterexample: with `TIMEOUT_RATE=-0.5` — a negative failure rate —
startup resolution does not fail: it produces a configuration carrying the
invalid value, and a request is then served normally under it (here to
SUCCESS), instead of failing fast before any request is served. -/
theorem invalid_config_accepted_and_served :
    (resolveConfig envC9).timeoutRate = -(1/2) ∧
    (payHandler (resolveConfig envC9) 0 1 (9/10) (9/10) (9/10)
        (initState (resolveConfig envC9) 0)).1 = .SUCCESS := by
  simp [resolveConfig, falsyOr, envC9, envNone, payHandler,
    checkCircuitBreaker, updateCircuitBreaker, recordSuccessLatency,
    initState, initMetrics]
  norm_num

end MockProvider

namespace MockProvider

/-- The gate admits and mutates nothing while the breaker is CLOSED. -/
lemma gate_closed (cfg : Config) (now : ℚ) (cb : CircuitBreakerState)
    (h : cb.state = .CLOSED) :
    checkCircuitBreaker cfg now cb = (true, cb) := by
  simp [checkCircuitBreaker, h]

/-- `updateCircuitBreaker` is the identity when the breaker is disabled
(server.js line 81). -/
lemma breaker_noop_of_disabled (cfg : Config)
    (hdis : cfg.circuitBreakerEnabled = false) (now : ℚ) (b : Bool)
    (cb : CircuitBreakerState) (trips : ℕ) :
    updateCircuitBreaker cfg now b cb trips = (cb, trips) := by
  simp [updateCircuitBreaker, hdis]

/-- With the breaker disabled and currently CLOSED, a `/pay` request leaves
the breaker record untouched. -/
lemma payHandler_breaker_of_disabled (cfg : Config)
    (hdis : cfg.circuitBreakerEnabled = false) (tS tE r1 r2 r3 : ℚ)
    (s : ServerState) (h : s.circuitBreaker.state = .CLOSED) :
    (payHandler cfg tS tE r1 r2 r3 s).2.circuitBreaker = s.circuitBreaker := by
  unfold payHandler
  simp [gate_closed cfg tS s.circuitBreaker h,
    breaker_noop_of_disabled cfg hdis]
  split_ifs <;> simp [breaker_noop_of_disabled cfg hdis]

/-- With the breaker disabled, every reachable state has phase CLOSED: no
operation of the engine ever moves it. -/
lemma breaker_closed_of_disabled (cfg : Config)
    (hdis : cfg.circuitBreakerEnabled = false) :
    ∀ s, Reachable cfg s → s.circuitBreaker.state = .CLOSED := by
  intro s hs
  induction hs with
  | init t0 => rfl
  | step hr hstep ih =>
    cases hstep with
    | refill now h => simpa [refillTokens] using ih
    | pay tS tE r1 r2 r3 =>
      rw [payHandler_breaker_of_disabled cfg hdis tS tE r1 r2 r3 _ ih]
      exact ih
    | reset now => rfl

/-- The failure-class metrics counters are maintained by the handler itself,
independently of the breaker: a TIMEOUT outcome increments `timeoutRequests`
and a PERMANENT or TRANSIENT failure increments `failedRequests`. -/
lemma payHandler_failure_metrics (cfg : Config) (tS tE r1 r2 r3 : ℚ)
    (s : ServerState) :
    ((payHandler cfg tS tE r1 r2 r3 s).1 = .TIMEOUT →
      (payHandler cfg tS tE r1 r2 r3 s).2.metrics.timeoutRequests
        = s.metrics.timeoutRequests + 1) ∧
    ((payHandler cfg tS tE r1 r2 r3 s).1 = .PERMANENT_FAILURE ∨
      (payHandler cfg tS tE r1 r2 r3 s).1 = .TRANSIENT_FAILURE →
      (payHandler cfg tS tE r1 r2 r3 s).2.metrics.failedRequests
        = s.metrics.failedRequests + 1) := by
  by_cases hg : (checkCircuitBreaker cfg tS s.circuitBreaker).1 = true
  · by_cases ht : s.tokens < 1
    · simp [payHandler, hg, ht]
    · by_cases h1 : r1 < cfg.timeoutRate
      · simp [payHandler, hg, ht, h1]
      · by_cases h2 : r2 < cfg.permanentFailureRate
        · simp [payHandler, hg, ht, h1, h2]
        · by_cases h3 : r3 < cfg.transientFailureRate
          · simp [payHandler, hg, ht, h1, h2, h3]
          · simp [payHandler, hg, ht, h1, h2, h3]
  · rw [Bool.not_eq_true] at hg
    simp [payHandler, hg]

/-- A `/pay` request either leaves the token count unchanged (rejected by
gate or rate limit) or, having held at least one token, consumes exactly
one. -/
lemma payHandler_tokens (cfg : Config) (tS tE r1 r2 r3 : ℚ)
    (s : ServerState) :
    (payHandler cfg tS tE r1 r2 r3 s).2.tokens = s.tokens ∨
    (1 ≤ s.tokens ∧
      (payHandler cfg tS tE r1 r2 r3 s).2.tokens = s.tokens - 1) := by
  by_cases hg : (checkCircuitBreaker cfg tS s.circuitBreaker).1 = true
  · by_cases ht : s.tokens < 1
    · simp [payHandler, hg, ht]
    · right
      refine ⟨not_lt.mp ht, ?_⟩
      by_cases h1 : r1 < cfg.timeoutRate
      · simp [payHandler, hg, ht, h1]
      · by_cases h2 : r2 < cfg.permanentFailureRate
        · simp [payHandler, hg, ht, h1, h2]
        · by_cases h3 : r3 < cfg.transientFailureRate
          · simp [payHandler, hg, ht, h1, h2, h3]
          · simp [payHandler, hg, ht, h1, h2, h3]
  · rw [Bool.not_eq_true] at hg
    simp [payHandler, hg]

/-- C5: when the breaker is disabled, in every reachable state the phase is
CLOSED, the gate admits every call without mutation, `reportOutcome` is the
identity on the breaker, and the failure metrics are still recorded by the
handler's counters (timeout and failed counters increment on the respective
outcomes). -/
theorem breaker_disabled_no_phase_change (cfg : Config)
    (hdis : cfg.circuitBreakerEnabled = false) (s : ServerState)
    (hs : Reachable cfg s) :
    s.circuitBreaker.state = .CLOSED ∧
    (∀ now, checkCircuitBreaker cfg now s.circuitBreaker
      = (true, s.circuitBreaker)) ∧
    (∀ now b trips, updateCircuitBreaker cfg now b s.circuitBreaker trips
      = (s.circuitBreaker, trips)) ∧
    (∀ tS tE r1 r2 r3,
      ((payHandler cfg tS tE r1 r2 r3 s).1 = .TIMEOUT →
        (payHandler cfg tS tE r1 r2 r3 s).2.metrics.timeoutRequests
          = s.metrics.timeoutRequests + 1) ∧
      ((payHandler cfg tS tE r1 r2 r3 s).1 = .PERMANENT_FAILURE ∨
        (payHandler cfg tS tE r1 r2 r3 s).1 = .TRANSIENT_FAILURE →
        (payHandler cfg tS tE r1 r2 r3 s).2.metrics.failedRequests
          = s.metrics.failedRequests + 1)) := by
  have hc := breaker_closed_of_disabled cfg hdis s hs
  exact ⟨hc, fun now => gate_closed cfg now s.circuitBreaker hc,
    fun now b trips =>
      breaker_noop_of_disabled cfg hdis now b s.circuitBreaker trips,
    fun tS tE r1 r2 r3 => payHandler_failure_metrics cfg tS tE r1 r2 r3 s⟩

/-- Witness for `breaker_disabled_no_phase_change`: the default environment
leaves the breaker disabled, and the initial state is CLOSED. -/
theorem breaker_disabled_no_phase_change_witness :
    (initState (resolveConfig envNone) 0).circuitBreaker.state = .CLOSED :=
  (breaker_disabled_no_phase_change (resolveConfig envNone)
    (by simp [resolveConfig, envNone])
    (initState (resolveConfig envNone) 0) (Reachable.init 0)).1

/-- C6: the token-bucket invariant `0 ≤ tokens ≤ burstSize` holds in every
reachable state, where the refill step sets the count to
`min (tokens + elapsedSeconds * tps) burstSize`, an admitted request
(`tokens ≥ 1`) subtracts one, a rate-limited request (`tokens < 1`) leaves
the token state unchanged, and reset restores the full capacity. -/
theorem token_bucket_invariant (cfg : Config)
    (htps : 0 ≤ cfg.tps) (hburst : 1 ≤ cfg.burstSize) :
    (∀ s, Reachable cfg s → 0 ≤ s.tokens ∧ s.tokens ≤ cfg.burstSize) ∧
    (∀ s now, (refillTokens cfg now s).tokens
      = min (s.tokens + (now - s.lastRefill) / 1000 * cfg.tps)
          cfg.burstSize) ∧
    (∀ s now, (resetHandler cfg now s).tokens = cfg.burstSize) ∧
    (∀ s tS tE r1 r2 r3, s.tokens < 1 →
      (payHandler cfg tS tE r1 r2 r3 s).2.tokens = s.tokens) ∧
    (∀ s tS tE r1 r2 r3,
      (checkCircuitBreaker cfg tS s.circuitBreaker).1 = true →
      ¬ s.tokens < 1 →
      (payHandler cfg tS tE r1 r2 r3 s).2.tokens = s.tokens - 1) := by
  refine ⟨?_, ?_, ?_, ?_, ?_⟩
  · intro s hs
    induction hs with
    | init t0 =>
      constructor
      · simpa [initState] using le_trans zero_le_one hburst
      · simp [initState]
    | step hr hstep ih =>
      cases hstep with
      | refill now h =>
        simp only [refillTokens]
        exact ⟨le_min
          (add_nonneg ih.1 (mul_nonneg
            (div_nonneg (sub_nonneg.mpr h) (by norm_num)) htps))
          (le_trans zero_le_one hburst), min_le_right _ _⟩
      | pay tS tE r1 r2 r3 =>
        rcases payHandler_tokens cfg tS tE r1 r2 r3 _ with heq | ⟨hge, heq⟩ <;>
          rw [heq]
        · exact ih
        · exact ⟨by linarith [ih.1], by linarith [ih.2]⟩
      | reset now =>
        exact ⟨le_trans zero_le_one hburst, le_refl _⟩
  · intro s now; rfl
  · intro s now; rfl
  · intro s tS tE r1 r2 r3 ht
    rcases payHandler_tokens cfg tS tE r1 r2 r3 s with heq | ⟨hge, heq⟩
    · exact heq
    · exact absurd ht (not_lt.mpr hge)
  · intro s tS tE r1 r2 r3 hg ht
    by_cases h1 : r1 < cfg.timeoutRate
    · simp [payHandler, hg, ht, h1]
    · by_cases h2 : r2 < cfg.permanentFailureRate
      · simp [payHandler, hg, ht, h1, h2]
      · by_cases h3 : r3 < cfg.transientFailureRate
        · simp [payHandler, hg, ht, h1, h2, h3]
        · simp [payHandler, hg, ht, h1, h2, h3]

/-- Witness for `token_bucket_invariant`: the bounds at the initial state of
the default-rate configuration. -/
theorem token_bucket_invariant_witness :
    0 ≤ (initState cfgDemo 0).tokens ∧
      (initState cfgDemo 0).tokens ≤ cfgDemo.burstSize :=
  (token_bucket_invariant cfgDemo (by norm_num [cfgDemo])
    (by norm_num [cfgDemo])).1 (initState cfgDemo 0) (Reachable.init 0)

/-- Fold characterisation of the success-path average update: after folding
a list of latencies, the success count has grown by the list's length and
the average times the new count equals the old weighted sum plus the list's
sum. -/
lemma foldl_recordSuccessLatency (ls : List ℚ) (m : Metrics) :
    (ls.foldl recordSuccessLatency m).successfulRequests
        = m.successfulRequests + ls.length ∧
    (ls.foldl recordSuccessLatency m).averageLatency
        * ((m.successfulRequests : ℚ) + ls.length)
      = m.averageLatency * m.successfulRequests + ls.sum := by
  induction ls generalizing m with
  | nil => simp
  | cons l t ih =>
    obtain ⟨h1, h2⟩ := ih (recordSuccessLatency m l)
    have hn : ((m.successfulRequests : ℚ) + 1) ≠ 0 := by positivity
    constructor
    · rw [List.foldl_cons, h1]
      simp [recordSuccessLatency]
      omega
    · rw [List.foldl_cons]
      have hcast :
          ((m.successfulRequests : ℚ) + (l :: t).length)
            = ((recordSuccessLatency m l).successfulRequests : ℚ)
                + t.length := by
        simp [recordSuccessLatency]
        ring
      rw [hcast, h2]
      simp [recordSuccessLatency, List.sum_cons]
      field_simp
      ring

/-- C8: starting from average 0 and success count 0, recording N successful
latencies through the incremental update
`avg = (avg * successCount + latency) / (successCount + 1)` (applied before
the count increments) yields exactly the arithmetic mean of the latencies,
independently of their arrival order. -/
theorem running_average_is_mean (m : Metrics)
    (h0 : m.averageLatency = 0) (hc : m.successfulRequests = 0)
    (ls ls2 : List ℚ) (hperm : ls.Perm ls2) (hne : ls ≠ []) :
    (ls.foldl recordSuccessLatency m).averageLatency
      = ls.sum / ls.length ∧
    (ls2.foldl recordSuccessLatency m).averageLatency
      = (ls.foldl recordSuccessLatency m).averageLatency := by
  have key : ∀ l : List ℚ, l ≠ [] →
      (l.foldl recordSuccessLatency m).averageLatency
        = l.sum / l.length := by
    intro l hl
    have h := (foldl_recordSuccessLatency l m).2
    rw [hc, h0] at h
    push_cast at h
    simp at h
    have hlen : (l.length : ℚ) ≠ 0 := by
      simpa using fun hz => hl (List.length_eq_zero.mp hz)
    field_simp
    linarith [h]
  refine ⟨key ls hne, ?_⟩
  rw [key ls hne, key ls2 fun h2 => hne (List.Perm.eq_nil (h2 ▸ hperm))]
  rw [hperm.sum_eq, hperm.length_eq]

/-- Witness for `running_average_is_mean`: latencies `[1, 2, 3]` against the
permutation `[2, 1, 3]`, starting from freshly initialised metrics. -/
theorem running_average_is_mean_witness :
    (([1, 2, 3] : List ℚ).foldl recordSuccessLatency
        (initMetrics 0)).averageLatency
      = ([1, 2, 3] : List ℚ).sum / (([1, 2, 3] : List ℚ).length : ℚ) :=
  (running_average_is_mean (initMetrics 0) rfl rfl [1, 2, 3] [2, 1, 3]
    (List.Perm.swap 2 1 [3]) (by simp)).1

end MockProvider
